import Mathlib

/-!
Verification development for `src/fred_data.py`: a single-shot batch script
that fetches FRED time series, outer-joins them on the date axis, and writes
CSV (and optionally Parquet) files.

Modelling conventions (shallow embedding):
* Dates are `Nat` — the provider timestamps after `pd.to_datetime`, which the
  script applies as a pure normalization; only order and equality of dates are
  used by the code.
* Observation values are `Option Int`; `none` models a provider-reported
  missing value (NaN).
* A fetched pandas `Series` is `ObsSeries`; a pandas `DataFrame` is
  `DataFrame`: a row index plus one labelled value column per series.
  Column labels are `PyLabel` (a Python string, or a tuple as used for the
  two-level `MultiIndex` header).
* Effects are explicit: the fetch loop returns an event trace (requests and
  sleeps), and the `__main__` block is `runMain`, a function from the world of
  external responses (environment, provider, filesystem) to an `Outcome`
  record (exit code, files written in order, requests made, stderr, stdout).
-/

/-- Python column label: a plain string, or a tuple of labels (the
`MultiIndex` header `(FRED_ID, Description)` uses string pairs). -/
inductive PyLabel
  | str (s : String)
  | tup (a b : PyLabel)
deriving DecidableEq

/-- One fetched series, `s = fred.get_series(sid)` with `s.name = sid`:
`obs` is its (date, nullable value) sequence. -/
structure ObsSeries where
  name : String
  obs : List (Nat × Option Int)
deriving DecidableEq

/-- A pandas data frame: a row index of dates and labelled value columns,
each column's value list aligned positionally with `index`. -/
structure DataFrame where
  index : List Nat
  cols : List (PyLabel × List (Option Int))
deriving DecidableEq

/-- The hardcoded `SERIES` dict of `fred_data.py` (insertion order kept). -/
def SERIES : List (String × String) := [
  ("BAMLC0A0CMEY", "ICE BofA US Corporate Index Effective Yield"),
  ("BAMLH0A0HYM2EY", "ICE BofA US High Yield Index Effective Yield"),
  ("BAMLC0A0CM", "ICE BofA US Corporate Index OAS"),
  ("BAMLH0A0HYM2", "ICE BofA US High Yield Index OAS"),
  ("VIXCLS", "CBOE Volatility Index (VIX)"),
  ("DGS10", "Market Yield on U.S. Treasury (10Y CMT)"),
  ("DGS5", "Market Yield on U.S. Treasury (5Y CMT)"),
  ("DGS2", "Market Yield on U.S. Treasury (2Y CMT)"),
  ("DGS30", "Market Yield on U.S. Treasury (30Y CMT)"),
  ("CPIAUCSL", "CPI: All Items"),
  ("CPILFESL", "CPI: All Items less Food & Energy"),
  ("UNRATE", "Unemployment Rate"),
  ("CCSA", "Continued Claims (Insured Unemployment)")]

/-! ## Secondary output path: `args.out.replace(".csv", "_friendly.csv")`

Python `str.replace` replaces every non-overlapping occurrence of the
pattern, scanning left to right. We embed it for the fixed pattern `.csv`
and replacement `_friendly.csv` used on line 109. The recursion carries a
fuel argument equal to the input length, which suffices because every step
consumes at least one character. -/

/-- The pattern `.csv` as a character list. -/
def csvPat : List Char := ['.', 'c', 's', 'v']

/-- The replacement `_friendly.csv` as a character list. -/
def friendlyRep : List Char := ['_', 'f', 'r', 'i', 'e', 'n', 'd', 'l', 'y', '.', 'c', 's', 'v']

/-- Does the character list start with `.csv`? -/
def startsWithCsv : List Char → Bool
  | a :: b :: u :: d :: _ => a == '.' && b == 'c' && u == 's' && d == 'v'
  | _ => false

/-- Left-to-right, non-overlapping replacement of `.csv` by `_friendly.csv`
(Python `str.replace` for this fixed pattern), with fuel. -/
def replaceCsvGo : Nat → List Char → List Char
  | _, [] => []
  | 0, l => l
  | fuel + 1, c :: cs =>
    if startsWithCsv (c :: cs) then friendlyRep ++ replaceCsvGo fuel (cs.drop 3)
    else c :: replaceCsvGo fuel cs

/-- `s.replace(".csv", "_friendly.csv")` from line 109 of the source. -/
def pyReplaceCsv (s : String) : String :=
  String.mk (replaceCsvGo s.toList.length s.toList)

/-- Does the character list contain `.csv` as a (contiguous) substring? -/
def hasCsv : List Char → Bool
  | [] => false
  | c :: cs => startsWithCsv (c :: cs) || hasCsv cs

/-- Modelled from the spec: the secondary path is "the primary path with a
fixed literal suffix inserted before the extension, leaving the rest of the
path unchanged"; the extension starts at the last dot of the path. -/
def specSecondaryPath (p : String) : String :=
  let l := p.toList
  if ('.' ∈ l) then
    let suffixLen := (l.reverse.takeWhile (fun c => c ≠ '.')).length
    String.mk (l.take (l.length - suffixLen - 1) ++ ("_friendly").toList ++
      l.drop (l.length - suffixLen - 1))
  else p ++ ("_friendly")

/-! ## Configuration resolution: `parse_args` (lines 44–50) -/

/-- Command-line flags as given (each `none` means the flag was absent). -/
structure Flags where
  apiKey : Option String
  out : Option String
  parquet : Option String
  timeout : Option Rat
deriving DecidableEq

/-- The resolved `argparse.Namespace`. -/
structure Args where
  api_key : Option String
  out : String
  parquet : Option String
  timeout : Rat
deriving DecidableEq

/-- The argparse default for `--api-key` is `os.getenv("FRED_API_KEY")`:
the flag value wins when present, else the environment value (which may
itself be absent, or present and empty). -/
def resolveKey (flagKey env : Option String) : Option String :=
  match flagKey with
  | some k => some k
  | none => env

/-- `parse_args()`: defaults are the env-resolved key, the fixed output
filename, no parquet path, and a zero inter-request delay. -/
def parse_args (env : Option String) (f : Flags) : Args :=
  { api_key := resolveKey f.apiKey env
    out := f.out.getD ("fred_series_all.csv")
    parquet := f.parquet
    timeout := f.timeout.getD 0 }

/-- Python truthiness of `args.api_key` as used by `if not args.api_key`:
`None` and the empty string are falsy. -/
def pyTruthy : Option String → Bool
  | none => false
  | some s => !s.isEmpty

/-! ## Merge: `fetch_all`'s `pd.concat(frames, axis=1, join="outer").sort_index()` -/

/-- All dates appearing in any fetched series (with multiplicity). -/
def allDates (frames : List ObsSeries) : List Nat :=
  frames.flatMap fun s => s.obs.map Prod.fst

/-- The merged row index: the sorted, de-duplicated union of all dates. -/
def unionDates (frames : List ObsSeries) : List Nat :=
  (allDates frames).dedup.insertionSort (· ≤ ·)

/-- One series aligned to the merged row index: at each index date, the
series' stored observation if that exact date is in its index, else the
missing marker (the outer-join fill). -/
def seriesColumn (idx : List Nat) (s : ObsSeries) : List (Option Int) :=
  idx.map fun d => (s.obs.lookup d).getD none

/-- `pd.concat(frames, axis=1, join="outer").sort_index()` (line 64): row
index is the sorted de-duplicated union of the series' dates; one column per
series, in input order, labelled by the series name. -/
def pdConcatOuter (frames : List ObsSeries) : DataFrame :=
  { index := unionDates frames
    cols := frames.map fun s => (PyLabel.str s.name, seriesColumn (unionDates frames) s) }

/-- The cell of column `k` at row label `d`: `some v` means the cell holds
`v` (itself possibly the missing marker); `none` means no such cell. -/
def DataFrame.cellAtDate (df : DataFrame) (k : Nat) (d : Nat) : Option (Option Int) :=
  match df.cols.get? k with
  | none => none
  | some c => c.snd.get? (df.index.indexOf d)

/-! ## Labeling: `add_metadata_columns` (lines 67–79) -/

/-- `SERIES.get(sid, sid)` on a column label, and equally the effect of
`df.rename(columns=friendly)` on one label, where
`friendly = {sid: SERIES[sid] for sid in df.columns if sid in SERIES}`:
a string label found in the dict maps to its description, any other label
(string not in the dict, or tuple) is unchanged. -/
def seriesGet : PyLabel → PyLabel
  | PyLabel.str s =>
    match SERIES.lookup s with
    | some d => PyLabel.str d
    | none => PyLabel.str s
  | l => l

/-- `add_metadata_columns(df)`, lines 67–79. Returns
`(input frame after the in-place header mutation, df_out, df_friendly)`:
`df_friendly = df.rename(columns=friendly)` is computed from the original
headers (lines 70–71); then `df.columns = cols` (line 75) replaces each
label `sid` of the input in place by the tuple `(sid, SERIES.get(sid, sid))`;
`df_out = df.copy()` (line 77) is a copy of the mutated input. -/
def add_metadata_columns (df : DataFrame) : DataFrame × DataFrame × DataFrame :=
  let df_friendly : DataFrame :=
    { index := df.index, cols := df.cols.map fun c => (seriesGet c.fst, c.snd) }
  let dfMutated : DataFrame :=
    { index := df.index, cols := df.cols.map fun c => (PyLabel.tup c.fst (seriesGet c.fst), c.snd) }
  (dfMutated, dfMutated, df_friendly)

/-! ## Fetch loop: `fetch_all` (lines 52–65) -/

/-- Externally visible events of the fetch loop: one provider request per
`fred.get_series(sid)` call, and one suspension per `time.sleep`. -/
inductive FetchEvent
  | request (sid : String)
  | sleep (secs : Rat)
deriving DecidableEq

/-- Is the event a sleep? -/
def FetchEvent.isSleep : FetchEvent → Bool
  | .sleep _ => true
  | .request _ => false

/-- The provider requests of a trace, in order. -/
def requestsOf (evs : List FetchEvent) : List String :=
  evs.filterMap fun e => match e with
    | .request sid => some sid
    | .sleep _ => none

/-- The loop body of `fetch_all` over `enumerate(series_ids, 1)` (lines
54–62): fetch each id in order (a raised `ProviderError` propagates at once,
so the trace and the loop stop there); tag the series with its id (the
`pd.to_datetime` normalization is the identity on our date type); then
`time.sleep(args.timeout)` when `args.timeout > 0 and i < len(series_ids)`.
`n` is the catalog length and `i` the 1-based position. -/
def fetchLoop (fetchR : String → Except String (List (Nat × Option Int)))
    (t : Rat) (n : Nat) : Nat → List String → List FetchEvent × Except String (List ObsSeries)
  | _, [] => ([], Except.ok [])
  | i, sid :: rest =>
    match fetchR sid with
    | Except.error e => ([FetchEvent.request sid], Except.error e)
    | Except.ok obs =>
      let sleeps := if 0 < t ∧ i < n then [FetchEvent.sleep t] else []
      let r := fetchLoop fetchR t n (i + 1) rest
      (FetchEvent.request sid :: (sleeps ++ r.fst),
        match r.snd with
        | Except.error e => Except.error e
        | Except.ok frames => Except.ok (⟨sid, obs⟩ :: frames))

/-- `fetch_all(fred, series_ids)` (lines 52–65): the event trace of the
loop, and — when every fetch succeeds — the outer-join merge of the fetched
series. -/
def fetch_all (fetchR : String → Except String (List (Nat × Option Int)))
    (t : Rat) (ids : List String) : List FetchEvent × Except String DataFrame :=
  let r := fetchLoop fetchR t ids.length 1 ids
  (r.fst, match r.snd with
    | Except.error e => Except.error e
    | Except.ok frames => Except.ok (pdConcatOuter frames))

/-- The series the loop accumulates when every fetch succeeds. -/
def okFrames (fetchR : String → Except String (List (Nat × Option Int)))
    (ids : List String) : List ObsSeries :=
  ids.filterMap fun sid => ((fetchR sid).toOption).map fun obs => ⟨sid, obs⟩

/-- Did the fallible computation succeed? -/
def exOk {α : Type} (r : Except String α) : Bool :=
  match r with
  | Except.ok _ => true
  | Except.error _ => false

/-! ## Output rendering and the `__main__` block (lines 81–111) -/

/-- Render one cell for CSV: missing values print as the empty field. -/
def renderCell : Option Int → String
  | none => ""
  | some v => toString v

/-- Render a label (tuples print in Python tuple style). -/
def PyLabel.render : PyLabel → String
  | .str s => s
  | .tup a b => "(" ++ a.render ++ ", " ++ b.render ++ ")"

/-- First component of a (possibly two-level) column label. -/
def headerTop : PyLabel → String
  | .str s => s
  | .tup a _ => a.render

/-- Second component of a two-level column label. -/
def headerBottom : PyLabel → String
  | .str _ => ""
  | .tup _ b => b.render

/-- Is the label a plain string? -/
def isStrLabel : PyLabel → Bool
  | .str _ => true
  | .tup _ _ => false

/-- `df.to_csv(path, index_label="Date")`: one header row for flat columns,
two header rows (plus the index-label row) for `MultiIndex` columns, then
one row per index date. Deterministic function of the frame. -/
def toCsv (df : DataFrame) : String :=
  let heads :=
    if df.cols.all (fun c => isStrLabel c.fst) then
      String.intercalate (",") (("Date") :: df.cols.map fun c => headerTop c.fst) ++ "\n"
    else
      String.intercalate (",") (("FRED_ID") :: df.cols.map fun c => headerTop c.fst) ++ "\n" ++
      String.intercalate (",") (("Description") :: df.cols.map fun c => headerBottom c.fst) ++ "\n" ++
      ("Date") ++ String.mk (List.replicate df.cols.length ',') ++ "\n"
  let row := fun (i : Nat) =>
    String.intercalate (",")
      (toString (df.index.getD i 0) :: df.cols.map fun c => renderCell (c.snd.getD i none)) ++ "\n"
  heads ++ String.join ((List.range df.index.length).map row)

/-- `df.to_parquet(path, engine="pyarrow")` bytes: an opaque, deterministic
stand-in for the columnar binary encoding of the same frame. -/
def toParquet (df : DataFrame) : String :=
  ("PAR1") ++ toCsv df

/-- The external world a run observes: the `FRED_API_KEY` environment value,
the provider's response per series id, and whether each file write succeeds
(`parquetRes p = some e` means the parquet write to `p` raises `e`). -/
structure World where
  env : Option String
  fetchR : String → Except String (List (Nat × Option Int))
  csvOk : String → Bool
  parquetRes : String → Option String

/-- Observable outcome of a run: the process exit code, the files
successfully written in order (path, bytes), the provider requests made in
order, and the stderr/stdout lines. -/
structure Outcome where
  exitCode : Nat
  files : List (String × String)
  requests : List String
  stderr : List String
  stdout : List String
deriving DecidableEq

/-- The missing-credential message written to stderr (lines 84–86). -/
def missingKeyMsg : String :=
  "Error: FRED API key not provided. Use --api-key or set FRED_API_KEY env var.\n"

/-- Lines 94–111 of `__main__`, after a successful fetch phase: label the
merged frame, write the primary CSV (a raised write error aborts, exit
non-zero), best-effort parquet write (failure only reports to stderr), then
derive the friendly filename and write the secondary CSV (a raised write
error aborts, keeping the files already written). -/
def writePhase (args : Args) (w : World) (df : DataFrame) (requests : List String) : Outcome :=
  let r := add_metadata_columns df
  let df_multi := r.2.1
  let df_friendly := r.2.2
  if w.csvOk args.out = false then
    { exitCode := 1, files := [], requests := requests,
      stderr := [("Traceback: CSV write failed: ") ++ args.out], stdout := [] }
  else
    let files1 := [(args.out, toCsv df_multi)]
    let stdout1 := [("Wrote CSV: ") ++ args.out]
    let step2 :=
      match args.parquet with
      | none => (files1, ([] : List String), stdout1)
      | some pq =>
        match w.parquetRes pq with
        | none => (files1 ++ [(pq, toParquet df_multi)], [],
            stdout1 ++ [("Wrote Parquet: ") ++ pq])
        | some e => (files1, [("Parquet write failed (install pyarrow?): ") ++ e ++ "\n"], stdout1)
    let friendly_out := pyReplaceCsv args.out
    if w.csvOk friendly_out = false then
      { exitCode := 1, files := step2.1, requests := requests,
        stderr := step2.2.1 ++ [("Traceback: CSV write failed: ") ++ friendly_out],
        stdout := step2.2.2 }
    else
      { exitCode := 0, files := step2.1 ++ [(friendly_out, toCsv df_friendly)],
        requests := requests, stderr := step2.2.1,
        stdout := step2.2.2 ++ [("Wrote CSV with friendly column names: ") ++ friendly_out] }

/-- The `__main__` block (lines 81–111): parse args; abort with exit 1 and
no requests or files when the credential is falsy; otherwise run the fetch
loop over the catalog ids (a `ProviderError` propagates: exit non-zero, no
files) and, on success, the write phase. -/
def runMain (f : Flags) (w : World) : Outcome :=
  let args := parse_args w.env f
  if pyTruthy args.api_key = false then
    { exitCode := 1, files := [], requests := [], stderr := [missingKeyMsg], stdout := [] }
  else
    let ids := SERIES.map Prod.fst
    let r := fetch_all w.fetchR args.timeout ids
    match r.snd with
    | Except.error e =>
      { exitCode := 1, files := [], requests := requestsOf r.fst,
        stderr := [("Traceback: ProviderError: ") ++ e], stdout := [] }
    | Except.ok df => writePhase args w df (requestsOf r.fst)

/-- The bytes a path holds after a run: the last successful write to it. -/
def finalFile (files : List (String × String)) (p : String) : Option String :=
  files.reverse.lookup p

/-! ## Facts about the `.csv` replacement -/

/-- Appending `.csv` to a list not starting with `.csv` cannot create an
occurrence at its head: the pattern cannot straddle the boundary. -/
theorem startsWithCsv_append (c : Char) (cs : List Char)
    (h : startsWithCsv (c :: cs) = false) :
    startsWithCsv ((c :: cs) ++ csvPat) = false := by
  match cs with
  | [] => simp [startsWithCsv, csvPat]
  | [b] => simp [startsWithCsv, csvPat]
  | [b, u] => simp [startsWithCsv, csvPat]
  | b :: u :: d :: rest => exact h

/-- On an input with no occurrence of `.csv`, the replacement is the
identity, whatever the fuel. -/
theorem replaceCsvGo_no_occur : ∀ (fuel : Nat) (l : List Char),
    hasCsv l = false → replaceCsvGo fuel l = l
  | fuel, [], _ => by cases fuel <;> rfl
  | 0, _ :: _, _ => rfl
  | fuel + 1, c :: cs, h => by
    simp only [hasCsv, Bool.or_eq_false_iff] at h
    simp only [replaceCsvGo, h.1, if_false, Bool.false_eq_true]
    rw [replaceCsvGo_no_occur fuel cs h.2]

/-- When `.csv` occurs exactly once, as the suffix, the replacement rewrites
just that suffix. -/
theorem replaceCsvGo_stem : ∀ (fuel : Nat) (stem : List Char),
    stem.length + 4 ≤ fuel → hasCsv stem = false →
    replaceCsvGo fuel (stem ++ csvPat) = stem ++ friendlyRep
  | 0, stem, hf, _ => absurd hf (by omega)
  | fuel + 1, [], _, _ => by
    simp [csvPat, replaceCsvGo, startsWithCsv, friendlyRep]
  | fuel + 1, c :: cs, hf, h => by
    simp only [hasCsv, Bool.or_eq_false_iff] at h
    have h1 := startsWithCsv_append c cs h.1
    simp only [List.cons_append] at h1 ⊢
    simp only [replaceCsvGo, h1, if_false, Bool.false_eq_true]
    rw [replaceCsvGo_stem fuel cs (by simpa using Nat.le_of_succ_le_succ hf) h.2]

/-- When the primary path contains no occurrence of `.csv`, the code's
secondary-path derivation is the identity. -/
theorem pyReplaceCsv_id (s : String) (h : hasCsv s.data = false) :
    pyReplaceCsv s = s := by
  obtain ⟨l⟩ := s
  apply String.ext
  exact replaceCsvGo_no_occur l.length l h

/-- C2 counterexample: on the primary output path `a.csv.csv` the code's
derivation (`str.replace`, every occurrence) differs from the claimed
derivation (insert the suffix before the extension, rest unchanged): the
code rewrites the inner `.csv` too. -/
theorem secondary_path_counterexample :
    pyReplaceCsv ("a.csv.csv") ≠ specSecondaryPath ("a.csv.csv") ∧
    pyReplaceCsv ("a.csv.csv") = ("a_friendly.csv_friendly.csv") ∧
    specSecondaryPath ("a.csv.csv") = ("a.csv_friendly.csv") := by
  refine ⟨?_, ?_, ?_⟩ <;> decide

/-- C2 (amended): the code derives the secondary path by replacing every
occurrence of the literal `.csv` with `_friendly.csv`; whenever `.csv`
occurs in the primary path exactly once, namely as its final extension,
this coincides with inserting the fixed literal `_friendly` immediately
before the extension, leaving the rest of the path unchanged. -/
theorem secondary_path_amended (stem : String) (h : hasCsv stem.data = false) :
    pyReplaceCsv (stem ++ (".csv")) = stem ++ ("_friendly") ++ (".csv") := by
  obtain ⟨l⟩ := stem
  apply String.ext
  simp only [String.data_append]
  have hcsv : (".csv" : String).data = csvPat := rfl
  have hfr : ("_friendly" : String).data ++ (".csv" : String).data = friendlyRep := rfl
  have hlhs : (pyReplaceCsv (String.mk l ++ (".csv"))).data
      = replaceCsvGo (l ++ csvPat).length (l ++ csvPat) := rfl
  rw [hlhs, List.append_assoc, hfr,
    replaceCsvGo_stem (l ++ csvPat).length l (by simp [csvPat]) h]

/-- Witness for the amended C2 theorem, at the default output filename. -/
theorem secondary_path_amended_witness :
    pyReplaceCsv (("fred_series_all") ++ (".csv"))
      = ("fred_series_all") ++ ("_friendly") ++ (".csv") :=
  secondary_path_amended ("fred_series_all") (by decide)

/-! ## C6: the labeling step -/

/-- C6 counterexample: `add_metadata_columns` does not leave its input
unchanged — line 75 (`df.columns = cols`) replaces the input frame's column
headers in place. On a one-column frame, the input's post-call state
differs from the original input. -/
theorem labeling_counterexample :
    (add_metadata_columns ⟨[0], [(PyLabel.str ("X"), [some 1])]⟩).1
      ≠ (⟨[0], [(PyLabel.str ("X"), [some 1])]⟩ : DataFrame) := by decide

/-- C6 (amended): the labeling step alters only column-header metadata —
which includes mutating the input frame's headers in place — and never any
data value: the mutated input, the dual-header view `df_out` and the
description-only view `df_friendly` all keep the input's row index and,
cell for cell, exactly the input's column values; the dual-header view is
the mutated input. -/
theorem labeling_cells_unchanged (df : DataFrame) :
    (add_metadata_columns df).1.index = df.index ∧
    (add_metadata_columns df).2.1.index = df.index ∧
    (add_metadata_columns df).2.2.index = df.index ∧
    (add_metadata_columns df).1.cols.map Prod.snd = df.cols.map Prod.snd ∧
    (add_metadata_columns df).2.1.cols.map Prod.snd = df.cols.map Prod.snd ∧
    (add_metadata_columns df).2.2.cols.map Prod.snd = df.cols.map Prod.snd ∧
    (add_metadata_columns df).2.1 = (add_metadata_columns df).1 := by
  simp [add_metadata_columns, List.map_map, Function.comp]

/-! ## C1: the outer-join merge -/

/-- With distinct keys, `lookup` finds exactly the stored pair. -/
theorem lookup_eq_some_of_mem {β : Type} {l : List (Nat × β)}
    (hnd : (l.map Prod.fst).Nodup) {d : Nat} {v : β} (h : (d, v) ∈ l) :
    l.lookup d = some v := by
  induction l with
  | nil => cases h
  | cons p rest ih =>
    obtain ⟨k, w⟩ := p
    simp only [List.map_cons, List.nodup_cons] at hnd
    rcases List.mem_cons.mp h with h1 | h1
    · cases h1
      simp [List.lookup]
    · have hne : (d == k) = false := by
        refine beq_eq_false_iff_ne.mpr fun hkd => ?_
        exact hnd.1 (hkd ▸ List.mem_map.mpr ⟨(d, v), h1, rfl⟩)
      simp [List.lookup, hne, ih hnd.2 h1]

/-- A date absent from the keys looks up to nothing. -/
theorem lookup_eq_none_of_not_mem {β : Type} {l : List (Nat × β)} {d : Nat}
    (h : d ∉ l.map Prod.fst) : l.lookup d = none := by
  induction l with
  | nil => rfl
  | cons p rest ih =>
    obtain ⟨k, w⟩ := p
    simp only [List.map_cons, List.mem_cons, not_or] at h
    have hne : (d == k) = false := beq_eq_false_iff_ne.mpr h.1
    simp [List.lookup, hne, ih h.2]

/-- The merged cell of column `k` at an index date is that series' lookup
at exactly that date, with the missing marker as outer-join fill. -/
theorem pdConcatOuter_cell (frames : List ObsSeries) (k : Nat) (hk : k < frames.length)
    (d : Nat) (hd : d ∈ unionDates frames) :
    (pdConcatOuter frames).cellAtDate k d
      = some (((frames.get ⟨k, hk⟩).obs.lookup d).getD none) := by
  simp only [DataFrame.cellAtDate, pdConcatOuter, seriesColumn, List.get?_eq_getElem?,
    List.getElem?_map, List.getElem?_eq_getElem hk, Option.map_some', List.get_eq_getElem]
  rw [← List.get?_eq_getElem?, List.indexOf_get? hd]
  rfl

/-- C1: for a non-empty list of fetched series with distinct dates within
each series, the merged table's row index is sorted ascending and without
duplicates and holds exactly the dates appearing in some input series; its
row count is the cardinality of that union of dates; it has one column per
input series, in input order, labelled by the series identifier; and the
cell of a column at an index date is that series' observation at exactly
that date when one exists, else the missing marker. -/
theorem merged_table_spec (frames : List ObsSeries) (_hne : frames ≠ [])
    (hnd : ∀ s ∈ frames, (s.obs.map Prod.fst).Nodup) :
    (pdConcatOuter frames).index.Sorted (· ≤ ·) ∧
    (pdConcatOuter frames).index.Nodup ∧
    (∀ d, d ∈ (pdConcatOuter frames).index ↔ d ∈ allDates frames) ∧
    (pdConcatOuter frames).index.length = (allDates frames).toFinset.card ∧
    (pdConcatOuter frames).cols.length = frames.length ∧
    (pdConcatOuter frames).cols.map Prod.fst
      = frames.map (fun s => PyLabel.str s.name) ∧
    (∀ k, ∀ hk : k < frames.length, ∀ d, d ∈ (pdConcatOuter frames).index →
      (∀ v, (d, v) ∈ (frames.get ⟨k, hk⟩).obs →
        (pdConcatOuter frames).cellAtDate k d = some v) ∧
      (d ∉ (frames.get ⟨k, hk⟩).obs.map Prod.fst →
        (pdConcatOuter frames).cellAtDate k d = some none)) := by
  have hperm := List.perm_insertionSort (· ≤ ·) (allDates frames).dedup
  have hnodup : (unionDates frames).Nodup :=
    hperm.nodup_iff.mpr (List.nodup_dedup _)
  have hmem : ∀ d, d ∈ unionDates frames ↔ d ∈ allDates frames := fun d =>
    hperm.mem_iff.trans List.mem_dedup
  refine ⟨List.sorted_insertionSort (· ≤ ·) (allDates frames).dedup, hnodup, hmem,
    ?_, by simp [pdConcatOuter], by simp [pdConcatOuter], ?_⟩
  · have h3 : (allDates frames).dedup.toFinset = (allDates frames).toFinset := by
      ext a
      simp [List.mem_toFinset, List.mem_dedup]
    calc (pdConcatOuter frames).index.length
        = (allDates frames).dedup.length := hperm.length_eq
      _ = (allDates frames).dedup.toFinset.card :=
          (List.toFinset_card_of_nodup (List.nodup_dedup _)).symm
      _ = (allDates frames).toFinset.card := by rw [h3]
  · intro k hk d hd
    have hcell := pdConcatOuter_cell frames k hk d hd
    refine ⟨fun v hv => ?_, fun hnm => ?_⟩
    · rw [hcell, lookup_eq_some_of_mem (hnd _ (List.get_mem frames _ _)) hv]
      rfl
    · rw [hcell, lookup_eq_none_of_not_mem hnm]
      rfl

/-- The two example series of the spec (dates 1, 15, 32 standing for
2020-01-01, 2020-01-15, 2020-02-01). -/
def exampleFrames : List ObsSeries :=
  [⟨"A", [(1, some 1), (32, some 2)]⟩, ⟨"B", [(15, some 9)]⟩]

/-- Witness for C1 at the spec's concrete example: three merged rows — the
size of the date union — and two columns. -/
theorem merged_table_spec_witness :
    (pdConcatOuter exampleFrames).index.length
        = (allDates exampleFrames).toFinset.card ∧
    (pdConcatOuter exampleFrames).cols.length = exampleFrames.length :=
  ⟨(merged_table_spec exampleFrames (by decide) (by decide)).2.2.2.1,
   (merged_table_spec exampleFrames (by decide) (by decide)).2.2.2.2.1⟩

/-! ## Fetch-loop lemmas -/

/-- One step of the loop when the fetch succeeds. -/
theorem fetchLoop_cons_ok (fetchR : String → Except String (List (Nat × Option Int)))
    (t : Rat) (n i : Nat) (sid : String) (rest : List String)
    (obs : List (Nat × Option Int)) (hr : fetchR sid = Except.ok obs) :
    fetchLoop fetchR t n i (sid :: rest)
      = (FetchEvent.request sid ::
          ((if 0 < t ∧ i < n then [FetchEvent.sleep t] else [])
            ++ (fetchLoop fetchR t n (i + 1) rest).fst),
         match (fetchLoop fetchR t n (i + 1) rest).snd with
         | Except.error e => Except.error e
         | Except.ok frames => Except.ok (⟨sid, obs⟩ :: frames)) := by
  conv_lhs => rw [fetchLoop]
  rw [hr]

/-- One step of the loop when the fetch raises. -/
theorem fetchLoop_cons_err (fetchR : String → Except String (List (Nat × Option Int)))
    (t : Rat) (n i : Nat) (sid : String) (rest : List String)
    (e : String) (hr : fetchR sid = Except.error e) :
    fetchLoop fetchR t n i (sid :: rest) = ([FetchEvent.request sid], Except.error e) := by
  conv_lhs => rw [fetchLoop]
  rw [hr]

/-- A request at the head of a trace heads the request list. -/
theorem requestsOf_cons_request (sid : String) (evs : List FetchEvent) :
    requestsOf (FetchEvent.request sid :: evs) = sid :: requestsOf evs := by
  simp [requestsOf]

/-- Sleeps contribute no provider requests to a trace. -/
theorem requestsOf_sleeps (P : Prop) [Decidable P] (t : Rat) (evs : List FetchEvent) :
    requestsOf ((if P then [FetchEvent.sleep t] else []) ++ evs) = requestsOf evs := by
  split <;> simp [requestsOf]

/-- When every fetch in the list succeeds, the loop returns exactly the
tagged series in order, and requests each identifier once, in order. -/
theorem fetchLoop_ok (fetchR : String → Except String (List (Nat × Option Int)))
    (t : Rat) (n : Nat) : ∀ (l : List String) (i : Nat),
    (∀ sid ∈ l, exOk (fetchR sid) = true) →
    (fetchLoop fetchR t n i l).snd = Except.ok (okFrames fetchR l) ∧
    requestsOf (fetchLoop fetchR t n i l).fst = l
  | [], _, _ => by simp [fetchLoop, okFrames, requestsOf]
  | sid :: rest, i, h => by
    have hs := h sid (List.mem_cons_self _ _)
    match hr : fetchR sid with
    | Except.error e =>
      rw [hr] at hs
      simp [exOk] at hs
    | Except.ok obs =>
      have ih := fetchLoop_ok fetchR t n rest (i + 1)
        (fun s hsm => h s (List.mem_cons_of_mem _ hsm))
      rw [fetchLoop_cons_ok fetchR t n i sid rest obs hr]
      refine ⟨?_, ?_⟩
      · show (match (fetchLoop fetchR t n (i + 1) rest).snd with
          | Except.error e => Except.error e
          | Except.ok frames => Except.ok (⟨sid, obs⟩ :: frames))
            = Except.ok (okFrames fetchR (sid :: rest))
        rw [ih.1]
        simp [okFrames, hr, Except.toOption]
      · show requestsOf (FetchEvent.request sid ::
          ((if 0 < t ∧ i < n then [FetchEvent.sleep t] else [])
            ++ (fetchLoop fetchR t n (i + 1) rest).fst)) = sid :: rest
        rw [requestsOf_cons_request, requestsOf_sleeps, ih.2]

/-- If the fetch of the `k`-th identifier raises while all earlier ones
succeed, the loop result is that error and the trace's requests are exactly
the first `k + 1` identifiers, in order. -/
theorem fetchLoop_error (fetchR : String → Except String (List (Nat × Option Int)))
    (t : Rat) (n : Nat) : ∀ (l : List String) (i k : Nat), k < l.length →
    (∀ j, j < k → exOk (fetchR (l.getD j "")) = true) →
    ∀ e, fetchR (l.getD k "") = Except.error e →
    (fetchLoop fetchR t n i l).snd = Except.error e ∧
    requestsOf (fetchLoop fetchR t n i l).fst = l.take (k + 1)
  | [], _, k, hk, _, _, _ => absurd hk (by simp)
  | sid :: rest, i, 0, _, _, e, herr => by
    simp only [List.getD_cons_zero] at herr
    rw [fetchLoop_cons_err fetchR t n i sid rest e herr]
    simp [requestsOf]
  | sid :: rest, i, k + 1, hk, hpre, e, herr => by
    have hs := hpre 0 (Nat.succ_pos k)
    simp only [List.getD_cons_zero] at hs
    match hr : fetchR sid with
    | Except.error e0 =>
      rw [hr] at hs
      simp [exOk] at hs
    | Except.ok obs =>
      have ih := fetchLoop_error fetchR t n rest (i + 1) k (by simpa using hk)
        (fun j hj => by simpa using hpre (j + 1) (by omega)) e (by simpa using herr)
      rw [fetchLoop_cons_ok fetchR t n i sid rest obs hr]
      refine ⟨?_, ?_⟩
      · show (match (fetchLoop fetchR t n (i + 1) rest).snd with
          | Except.error e => Except.error e
          | Except.ok frames => Except.ok (⟨sid, obs⟩ :: frames)) = Except.error e
        rw [ih.1]
      · show requestsOf (FetchEvent.request sid ::
          ((if 0 < t ∧ i < n then [FetchEvent.sleep t] else [])
            ++ (fetchLoop fetchR t n (i + 1) rest).fst))
            = (sid :: rest).take (k + 1 + 1)
        rw [requestsOf_cons_request, requestsOf_sleeps, ih.2, List.take_succ_cons]

/-- When every fetch succeeds and the loop starts with its 1-based counter
consistent with the total, the trace is the requests in catalog order,
interspersed with one fixed-duration sleep exactly when the delay is
positive. -/
theorem fetchLoop_trace (fetchR : String → Except String (List (Nat × Option Int)))
    (t : Rat) (n : Nat) : ∀ (l : List String) (i : Nat),
    (∀ sid ∈ l, exOk (fetchR sid) = true) → i + l.length = n + 1 →
    (fetchLoop fetchR t n i l).fst =
      if 0 < t then List.intersperse (FetchEvent.sleep t) (l.map FetchEvent.request)
      else l.map FetchEvent.request
  | [], _, _, _ => by simp [fetchLoop]
  | [sid], i, h, hn => by
    have hs := h sid (List.mem_cons_self _ _)
    match hr : fetchR sid with
    | Except.error e =>
      rw [hr] at hs
      simp [exOk] at hs
    | Except.ok obs =>
      have hi : ¬ i < n := by simp at hn; omega
      rw [fetchLoop_cons_ok fetchR t n i sid [] obs hr]
      show FetchEvent.request sid ::
          ((if 0 < t ∧ i < n then [FetchEvent.sleep t] else [])
            ++ (fetchLoop fetchR t n (i + 1) []).fst) = _
      simp [fetchLoop, hi, List.intersperse_singleton]
  | sid :: r2 :: rest, i, h, hn => by
    have hs := h sid (List.mem_cons_self _ _)
    match hr : fetchR sid with
    | Except.error e =>
      rw [hr] at hs
      simp [exOk] at hs
    | Except.ok obs =>
      have hi : i < n := by simp at hn; omega
      have ih := fetchLoop_trace fetchR t n (r2 :: rest) (i + 1)
        (fun s hsm => h s (List.mem_cons_of_mem _ hsm)) (by simp at hn ⊢; omega)
      rw [fetchLoop_cons_ok fetchR t n i sid (r2 :: rest) obs hr]
      show FetchEvent.request sid ::
          ((if 0 < t ∧ i < n then [FetchEvent.sleep t] else [])
            ++ (fetchLoop fetchR t n (i + 1) (r2 :: rest)).fst) = _
      rw [ih]
      by_cases ht : 0 < t
      · simp [ht, hi, List.intersperse_cons_cons]
      · simp [ht]

/-- The loop is a function of the provider's responses on the queried ids. -/
theorem fetchLoop_congr (f1 f2 : String → Except String (List (Nat × Option Int)))
    (t : Rat) (n : Nat) : ∀ (l : List String) (i : Nat),
    (∀ sid ∈ l, f1 sid = f2 sid) →
    fetchLoop f1 t n i l = fetchLoop f2 t n i l
  | [], _, _ => rfl
  | sid :: rest, i, h => by
    have h0 := h sid (List.mem_cons_self _ _)
    have ih := fetchLoop_congr f1 f2 t n rest (i + 1)
      (fun s hs => h s (List.mem_cons_of_mem _ hs))
    conv_lhs => rw [fetchLoop]
    conv_rhs => rw [fetchLoop]
    rw [h0, ih]

/-- A list of requests contains no sleep. -/
theorem countP_sleep_map (ids : List String) :
    (ids.map FetchEvent.request).countP FetchEvent.isSleep = 0 := by
  induction ids with
  | nil => rfl
  | cons sid rest ih => simp [List.countP_cons, FetchEvent.isSleep, ih]

/-- Interspersing a sleep between requests yields one sleep per gap. -/
theorem countP_sleep_intersperse (t : Rat) : ∀ ids : List String,
    (List.intersperse (FetchEvent.sleep t) (ids.map FetchEvent.request)).countP
      FetchEvent.isSleep = ids.length - 1
  | [] => rfl
  | [_] => rfl
  | sid :: r2 :: rest => by
    have ih := countP_sleep_intersperse t (r2 :: rest)
    simp only [List.map_cons] at ih ⊢
    rw [List.intersperse_cons_cons, List.countP_cons, List.countP_cons]
    simp only [FetchEvent.isSleep] at ih ⊢
    simp at ih ⊢
    omega

/-! ## Characterizations of the `__main__` block -/

/-- With a falsy credential the run stops before any request or write. -/
theorem runMain_no_key (f : Flags) (w : World)
    (h : pyTruthy (resolveKey f.apiKey w.env) = false) :
    runMain f w =
      { exitCode := 1, files := [], requests := [], stderr := [missingKeyMsg], stdout := [] } := by
  simp [runMain, parse_args, h]

/-- With a truthy credential the run is decided by the fetch loop over the
catalog identifiers. -/
theorem runMain_with_key (f : Flags) (w : World)
    (h : pyTruthy (resolveKey f.apiKey w.env) = true) :
    runMain f w =
      match (fetchLoop w.fetchR (parse_args w.env f).timeout
          (SERIES.map Prod.fst).length 1 (SERIES.map Prod.fst)).snd with
      | Except.error e =>
        { exitCode := 1, files := [],
          requests := requestsOf (fetchLoop w.fetchR (parse_args w.env f).timeout
            (SERIES.map Prod.fst).length 1 (SERIES.map Prod.fst)).fst,
          stderr := [("Traceback: ProviderError: ") ++ e], stdout := [] }
      | Except.ok frames =>
        writePhase (parse_args w.env f) w (pdConcatOuter frames)
          (requestsOf (fetchLoop w.fetchR (parse_args w.env f).timeout
            (SERIES.map Prod.fst).length 1 (SERIES.map Prod.fst)).fst) := by
  have hc : ¬ (pyTruthy (parse_args w.env f).api_key = false) := by
    simp [parse_args, h]
  simp only [runMain, fetch_all]
  rw [if_neg hc]
  cases hfl : (fetchLoop w.fetchR (parse_args w.env f).timeout
      (SERIES.map Prod.fst).length 1 (SERIES.map Prod.fst)).snd <;> simp [hfl]

/-- The write phase depends on the world only through the write results. -/
theorem writePhase_congr (args : Args) (w1 w2 : World) (df : DataFrame)
    (reqs : List String)
    (hcsv : ∀ p, w1.csvOk p = w2.csvOk p)
    (hpq : ∀ p, w1.parquetRes p = w2.parquetRes p) :
    writePhase args w1 df reqs = writePhase args w2 df reqs := by
  simp only [writePhase, hcsv, hpq]

/-! ## Claim theorems about the run -/

/-- C3: with no `--api-key` flag and no `FRED_API_KEY` environment value,
the process exits non-zero having written no output file and made no
provider request (and reports the missing-credential error). -/
theorem missing_credential_aborts (f : Flags) (w : World)
    (hflag : f.apiKey = none) (henv : w.env = none) :
    (runMain f w).exitCode ≠ 0 ∧ (runMain f w).files = [] ∧
    (runMain f w).requests = [] := by
  rw [runMain_no_key f w (by simp [resolveKey, hflag, henv, pyTruthy])]
  simp

/-- No flags on the command line. -/
def emptyFlags : Flags := ⟨none, none, none, none⟩

/-- A world with no environment credential, an always-failing provider and
a willing filesystem. -/
def quietWorld : World :=
  { env := none, fetchR := fun _ => Except.error ("unreachable"),
    csvOk := fun _ => true, parquetRes := fun _ => none }

/-- Witness for C3 at a concrete flag set and world. -/
theorem missing_credential_aborts_witness :
    (runMain emptyFlags quietWorld).exitCode ≠ 0 ∧
    (runMain emptyFlags quietWorld).files = [] ∧
    (runMain emptyFlags quietWorld).requests = [] :=
  missing_credential_aborts emptyFlags quietWorld rfl rfl

/-- C9: an empty-string credential — `--api-key ""` or an empty
`FRED_API_KEY` value — is treated exactly like a missing one: exit
non-zero, the missing-credential message on stderr, no output file, no
provider request. -/
theorem empty_credential_like_missing (f : Flags) (w : World)
    (h : f.apiKey = some "" ∨ (f.apiKey = none ∧ w.env = some "")) :
    (runMain f w).exitCode ≠ 0 ∧ (runMain f w).files = [] ∧
    (runMain f w).requests = [] ∧ (runMain f w).stderr = [missingKeyMsg] := by
  have hkey : pyTruthy (resolveKey f.apiKey w.env) = false := by
    rcases h with h | ⟨h1, h2⟩
    · simp only [resolveKey, h, pyTruthy]
      decide
    · simp only [resolveKey, h1, h2, pyTruthy]
      decide
  rw [runMain_no_key f w hkey]
  simp

/-- The empty string passed as the explicit `--api-key` flag. -/
def emptyKeyFlags : Flags := ⟨some "", none, none, none⟩

/-- Witness for C9 with `--api-key ""`. -/
theorem empty_credential_like_missing_witness :
    (runMain emptyKeyFlags quietWorld).exitCode ≠ 0 ∧
    (runMain emptyKeyFlags quietWorld).files = [] ∧
    (runMain emptyKeyFlags quietWorld).requests = [] ∧
    (runMain emptyKeyFlags quietWorld).stderr = [missingKeyMsg] :=
  empty_credential_like_missing emptyKeyFlags quietWorld (Or.inl rfl)

/-- C7: when every fetch succeeds, the loop's event trace is the catalog
requests in order with — exactly when the configured delay is positive —
one sleep of exactly that duration between each pair of consecutive
requests and none after the last: `n - 1` sleeps for `n` identifiers, and
no sleep at all when the delay is zero (the default) or negative. -/
theorem fetch_all_sleep_pattern (fetchR : String → Except String (List (Nat × Option Int)))
    (t : Rat) (ids : List String)
    (hok : ∀ sid ∈ ids, exOk (fetchR sid) = true) :
    ((fetch_all fetchR t ids).fst =
      if 0 < t then List.intersperse (FetchEvent.sleep t) (ids.map FetchEvent.request)
      else ids.map FetchEvent.request) ∧
    ((fetch_all fetchR t ids).fst.countP FetchEvent.isSleep
      = if 0 < t then ids.length - 1 else 0) := by
  have htr := fetchLoop_trace fetchR t ids.length ids 1 hok (by omega)
  have hfst : (fetch_all fetchR t ids).fst
      = (fetchLoop fetchR t ids.length 1 ids).fst := rfl
  refine ⟨by rw [hfst, htr], ?_⟩
  rw [hfst, htr]
  by_cases ht : 0 < t
  · rw [if_pos ht, if_pos ht]
    exact countP_sleep_intersperse t ids
  · rw [if_neg ht, if_neg ht]
    exact countP_sleep_map ids

/-- A provider that answers every request with an empty history. -/
def okProvider : String → Except String (List (Nat × Option Int)) :=
  fun _ => Except.ok []

/-- Witness for C7: three identifiers, delay 1 — two sleeps, between the
requests. -/
theorem fetch_all_sleep_pattern_witness :
    ((fetch_all okProvider 1 (["A", "B", "C"])).fst =
      if (0 : Rat) < 1 then
        List.intersperse (FetchEvent.sleep 1) ((["A", "B", "C"]).map FetchEvent.request)
      else (["A", "B", "C"]).map FetchEvent.request) ∧
    ((fetch_all okProvider 1 (["A", "B", "C"])).fst.countP FetchEvent.isSleep
      = if (0 : Rat) < 1 then (["A", "B", "C"] : List String).length - 1 else 0) :=
  fetch_all_sleep_pattern okProvider 1 (["A", "B", "C"]) (by decide)

/-- C5: if the fetch of the `k`-th catalog identifier raises a provider
error while every earlier fetch succeeds, the run aborts immediately: exit
non-zero, no output file written, and the provider was asked exactly the
first `k + 1` identifiers once each, in order — no skip-and-continue and
no retry of the failing identifier. -/
theorem fetch_error_aborts (f : Flags) (w : World) (k : Nat) (e : String)
    (hkey : pyTruthy (resolveKey f.apiKey w.env) = true)
    (hk : k < (SERIES.map Prod.fst).length)
    (hpre : ∀ j, j < k → exOk (w.fetchR ((SERIES.map Prod.fst).getD j "")) = true)
    (herr : w.fetchR ((SERIES.map Prod.fst).getD k "") = Except.error e) :
    (runMain f w).exitCode ≠ 0 ∧ (runMain f w).files = [] ∧
    (runMain f w).requests = (SERIES.map Prod.fst).take (k + 1) := by
  have hl := fetchLoop_error w.fetchR (parse_args w.env f).timeout
    (SERIES.map Prod.fst).length (SERIES.map Prod.fst) 1 k hk hpre e herr
  rw [runMain_with_key f w hkey, hl.1]
  refine ⟨by simp, by simp, ?_⟩
  exact hl.2

/-- A world whose provider refuses every request. -/
def downWorld : World :=
  { env := some "k", fetchR := fun _ => Except.error ("connection refused"),
    csvOk := fun _ => true, parquetRes := fun _ => none }

/-- Witness for C5: the very first fetch fails; one request is made, no
file is written, the exit code is non-zero. -/
theorem fetch_error_aborts_witness :
    (runMain emptyFlags downWorld).exitCode ≠ 0 ∧
    (runMain emptyFlags downWorld).files = [] ∧
    (runMain emptyFlags downWorld).requests = (SERIES.map Prod.fst).take (0 + 1) :=
  fetch_error_aborts emptyFlags downWorld 0 ("connection refused") (by decide)
    (by decide) (fun j hj => absurd hj (Nat.not_lt_zero j)) rfl

/-- C4: when a parquet path is configured, its write fails, and both
mandatory CSV writes succeed, the failure is only reported on the error
stream: the run continues, the secondary (friendly) CSV is still written,
no parquet file appears, and the process exits zero. -/
theorem parquet_failure_recovered (f : Flags) (w : World) (pq perr : String)
    (hkey : pyTruthy (resolveKey f.apiKey w.env) = true)
    (hfetch : ∀ sid ∈ SERIES.map Prod.fst, exOk (w.fetchR sid) = true)
    (hcsv : ∀ p, w.csvOk p = true)
    (hpq : f.parquet = some pq)
    (hpfail : w.parquetRes pq = some perr) :
    (runMain f w).exitCode = 0 ∧
    (runMain f w).stderr = [("Parquet write failed (install pyarrow?): ") ++ perr ++ "\n"] ∧
    (runMain f w).files.map Prod.fst
      = [(parse_args w.env f).out, pyReplaceCsv (parse_args w.env f).out] := by
  have hok := fetchLoop_ok w.fetchR (parse_args w.env f).timeout
    (SERIES.map Prod.fst).length (SERIES.map Prod.fst) 1 hfetch
  rw [runMain_with_key f w hkey, hok.1]
  simp [writePhase, hcsv, hpfail, parse_args, hpq]

/-- Flags requesting a parquet copy next to the CSV outputs. -/
def pqFlags : Flags := ⟨some "k", some "out.csv", some "out.parquet", none⟩

/-- A world whose parquet writes fail while everything else succeeds. -/
def pqFailWorld : World :=
  { env := none, fetchR := fun _ => Except.ok [],
    csvOk := fun _ => true, parquetRes := fun _ => some ("no pyarrow") }

/-- Witness for C4 at a concrete configuration. -/
theorem parquet_failure_recovered_witness :
    (runMain pqFlags pqFailWorld).exitCode = 0 ∧
    (runMain pqFlags pqFailWorld).stderr
      = [("Parquet write failed (install pyarrow?): ") ++ ("no pyarrow") ++ "\n"] ∧
    (runMain pqFlags pqFailWorld).files.map Prod.fst
      = [(parse_args pqFailWorld.env pqFlags).out,
         pyReplaceCsv (parse_args pqFailWorld.env pqFlags).out] :=
  parquet_failure_recovered pqFlags pqFailWorld ("out.parquet") ("no pyarrow")
    (by decide) (by decide) (fun _ => rfl) rfl rfl

/-- C10: when the primary `--out` path contains no occurrence of the
substring `.csv`, the derived secondary path equals the primary path, so
the run writes the dual-header CSV and then the description-only CSV to
the same path: the final content of the primary path is the later,
description-only file. -/
theorem no_csv_out_overwritten (f : Flags) (w : World) (out : String)
    (hout : f.out = some out)
    (hno : hasCsv out.data = false)
    (hkey : pyTruthy (resolveKey f.apiKey w.env) = true)
    (hfetch : ∀ sid ∈ SERIES.map Prod.fst, exOk (w.fetchR sid) = true)
    (hcsv : ∀ p, w.csvOk p = true)
    (hparq : f.parquet = none) :
    pyReplaceCsv out = out ∧
    (runMain f w).files =
      [(out, toCsv (add_metadata_columns
          (pdConcatOuter (okFrames w.fetchR (SERIES.map Prod.fst)))).2.1),
       (out, toCsv (add_metadata_columns
          (pdConcatOuter (okFrames w.fetchR (SERIES.map Prod.fst)))).2.2)] ∧
    finalFile (runMain f w).files out
      = some (toCsv (add_metadata_columns
          (pdConcatOuter (okFrames w.fetchR (SERIES.map Prod.fst)))).2.2) := by
  have hid : pyReplaceCsv out = out := pyReplaceCsv_id out hno
  have hok := fetchLoop_ok w.fetchR (parse_args w.env f).timeout
    (SERIES.map Prod.fst).length (SERIES.map Prod.fst) 1 hfetch
  have hfiles : (runMain f w).files =
      [(out, toCsv (add_metadata_columns
          (pdConcatOuter (okFrames w.fetchR (SERIES.map Prod.fst)))).2.1),
       (out, toCsv (add_metadata_columns
          (pdConcatOuter (okFrames w.fetchR (SERIES.map Prod.fst)))).2.2)] := by
    rw [runMain_with_key f w hkey, hok.1]
    simp [writePhase, hcsv, parse_args, hout, hparq, hid]
  refine ⟨hid, hfiles, ?_⟩
  rw [hfiles]
  simp [finalFile, List.lookup]

/-- `--out data.txt` (no `.csv` anywhere), with an explicit key. -/
def noCsvFlags : Flags := ⟨some "k", some "data.txt", none, none⟩

/-- A world where every fetch and every CSV write succeeds. -/
def okWorld : World :=
  { env := none, fetchR := fun _ => Except.ok [],
    csvOk := fun _ => true, parquetRes := fun _ => none }

/-- Witness for C10 at the concrete path `data.txt`. -/
theorem no_csv_out_overwritten_witness :
    pyReplaceCsv ("data.txt") = ("data.txt") ∧
    (runMain noCsvFlags okWorld).files =
      [(("data.txt"), toCsv (add_metadata_columns
          (pdConcatOuter (okFrames okWorld.fetchR (SERIES.map Prod.fst)))).2.1),
       (("data.txt"), toCsv (add_metadata_columns
          (pdConcatOuter (okFrames okWorld.fetchR (SERIES.map Prod.fst)))).2.2)] ∧
    finalFile (runMain noCsvFlags okWorld).files ("data.txt")
      = some (toCsv (add_metadata_columns
          (pdConcatOuter (okFrames okWorld.fetchR (SERIES.map Prod.fst)))).2.2) :=
  no_csv_out_overwritten noCsvFlags okWorld ("data.txt") rfl (by decide) (by decide)
    (by decide) (fun _ => rfl) rfl

/-- C8: the pipeline is deterministic in its inputs — two runs with the
same flags, the same environment credential, the same provider responses
for every catalog identifier and the same write results produce identical
outcomes, in particular byte-identical primary output files. -/
theorem pipeline_deterministic (f : Flags) (w1 w2 : World)
    (henv : w1.env = w2.env)
    (hfetch : ∀ sid ∈ SERIES.map Prod.fst, w1.fetchR sid = w2.fetchR sid)
    (hcsv : ∀ p, w1.csvOk p = w2.csvOk p)
    (hpq : ∀ p, w1.parquetRes p = w2.parquetRes p) :
    runMain f w1 = runMain f w2 := by
  have hfl := fetchLoop_congr w1.fetchR w2.fetchR (parse_args w2.env f).timeout
    (SERIES.map Prod.fst).length (SERIES.map Prod.fst) 1 hfetch
  simp only [runMain, fetch_all, henv, hfl, hcsv, hpq, writePhase]

/-- A second world, equal to `okWorld` on everything the run can observe. -/
def okWorldTwin : World :=
  { env := none, fetchR := fun _ => Except.ok ([] ++ []),
    csvOk := fun _ => true, parquetRes := fun _ => none }

/-- Witness for C8: the two observably equal worlds yield equal outcomes. -/
theorem pipeline_deterministic_witness :
    runMain noCsvFlags okWorld = runMain noCsvFlags okWorldTwin :=
  pipeline_deterministic noCsvFlags okWorld okWorldTwin rfl
    (fun _ _ => rfl) (fun _ => rfl) (fun _ => rfl)
